import Mathlib

/-!
Verification development for the Blink request-lifecycle engine.

Shallow embedding of the core components of the Blink source tree:
conversation memory (`src/history_manager.py`), the provider dispatch and
error translation (`src/llm_interface.py`), the direct-paste output handler
(`src/output_handler.py`), selection capture (`src/text_capturer.py`) and the
orchestration loop / hotkey admission (`src/hotkey_manager.py`).
Pure data transformations are embedded as Lean functions; the thread
interleavings relevant to admission control are embedded as a labelled
transition system.  Environment effects (the OS clipboard, the wire, the
queue) are explicit parameters of the embedded functions.
-/

namespace Blink

namespace Str

/-- Embedding of Python's `str.strip()`: drop leading and trailing
whitespace. -/
def strip (s : String) : String :=
  String.mk (((s.toList.dropWhile Char.isWhitespace).reverse.dropWhile
    Char.isWhitespace).reverse)

/-- Embedding of Python's `str.startswith(p)`. -/
def starts_with (s p : String) : Bool :=
  p.toList.isPrefixOf s.toList

/-- Embedding of Python's `str.endswith(p)` for a single-character suffix. -/
def ends_with (s p : String) : Bool :=
  p.toList.reverse.isPrefixOf s.toList.reverse

/-- Embedding of Python's `str.lower()`. -/
def to_lower (s : String) : String :=
  String.mk (s.toList.map Char.toLower)

end Str

namespace History

/-- Message stored in conversation history: a role/content pair, embedding the
dict `{"role": role, "content": content}` built by
`ConversationHistory.add_message`. -/
structure Message where
  role : String
  content : String
deriving DecidableEq, Repr

/-- State of `ConversationHistory`: the capped deque `self.history` with its
bound `maxlen` (the Python deque is kept oldest-first).  -/
structure ConversationHistory where
  maxlen : Nat
  history : List Message
deriving DecidableEq, Repr

/-- Fresh history as built by `ConversationHistory.__init__` (empty deque with
the configured `maxlen`). -/
def ConversationHistory.empty (maxlen : Nat) : ConversationHistory :=
  { maxlen := maxlen, history := [] }

/-- Embedding of `ConversationHistory.add_message`: append the message; the
capped deque then evicts its oldest entry when the bound is exceeded. -/
def ConversationHistory.add_message (h : ConversationHistory)
    (role content : String) : ConversationHistory :=
  let hist := h.history ++ [{ role := role, content := content }]
  if h.maxlen < hist.length then
    { maxlen := h.maxlen, history := hist.tail }
  else
    { maxlen := h.maxlen, history := hist }

/-- Embedding of `ConversationHistory.get_history`: a copy of the current
buffer in insertion order. -/
def ConversationHistory.get_history (h : ConversationHistory) : List Message :=
  h.history

/-- Folding a whole sequence of `add_message` calls over a history. -/
def ConversationHistory.add_all (h : ConversationHistory)
    (msgs : List Message) : ConversationHistory :=
  msgs.foldl (fun h m => h.add_message m.role m.content) h

/-- Last `n` elements of a list (suffix of length `min n l.length`). -/
def takeLast {α : Type} (n : Nat) (l : List α) : List α :=
  l.drop (l.length - n)

end History

namespace Provider

/-- Typed provider errors of `src/llm_interface.py`: the exception classes
`LLMConnectionError`, `LLMAuthError` and `LLMConfigError` with their messages
(these three classes are the whole taxonomy defined by the module). -/
inductive LLMError
  | connection (msg : String)
  | auth (msg : String)
  | config (msg : String)
deriving DecidableEq, Repr

/-- Wire/transport failures that the `requests` calls in `query_ollama` can
raise: `requests.exceptions.ConnectionError`, `requests.exceptions.Timeout`,
`requests.HTTPError` (with its response status code, raised by
`raise_for_status`), and any other `requests.RequestException`. -/
inductive RequestsError
  | connection_error
  | timeout_error
  | http_error (status_code : Nat)
  | request_exception (msg : String)
deriving DecidableEq, Repr

/-- Error translation of `LLMInterface.query_ollama`'s `except` clauses
(`src/llm_interface.py:196-206`). -/
def ollama_translate : RequestsError → LLMError
  | .connection_error =>
      .connection "Could not connect to Ollama server. Please ensure Ollama is running."
  | .timeout_error => .connection "Connection to Ollama server timed out."
  | .http_error code =>
      if code = 401 then .auth "Authentication failed with Ollama server."
      else .connection ("Ollama server error: " ++ toString code)
  | .request_exception msg =>
      .connection ("Network error communicating with Ollama: " ++ msg)

/-- Embedding of `LLMInterface.query_ollama`'s observable behaviour.
`chunks` are the decoded `message.content` fields of the response lines
received before the stream ended or failed; only truthy (non-empty) ones are
forwarded to `on_chunk`.  `failure` is the transport failure, if any; it is
re-raised translated. Result: (chunks delivered to `on_chunk`, raised error). -/
def query_ollama (chunks : List String) (failure : Option RequestsError) :
    List String × Option LLMError :=
  (chunks.filter (fun c => c != ""), failure.map ollama_translate)

/-- Substring test used to embed Python's `in` operator on strings. -/
def substr_occurs_in : List Char → List Char → Bool
  | pat, [] => pat.isEmpty
  | pat, c :: rest => pat.isPrefixOf (c :: rest) || substr_occurs_in pat rest

/-- Embedding of Python's `pat in s` substring test. -/
def contains_substr (s pat : String) : Bool :=
  substr_occurs_in pat.toList s.toList

/-- Error translation of `LLMInterface.query_openai`'s `except` clause
(`src/llm_interface.py:232-238`): keyword match on the lowercased exception
text decides auth vs connection. -/
def openai_translate (emsg : String) : LLMError :=
  let error_str := Str.to_lower emsg
  if contains_substr error_str "authentication" || contains_substr error_str "api key"
      || contains_substr error_str "unauthorized" then
    .auth "Invalid OpenAI API key. Please check your settings."
  else
    .connection ("Error communicating with OpenAI: " ++ emsg)

/-- Embedding of `LLMInterface.query_openai`: raises `LLMConfigError` when no
client is configured, otherwise forwards the truthy stream deltas and
translates any exception via `openai_translate`. -/
def query_openai (configured : Bool) (chunks : List String) (failure : Option String) :
    List String × Option LLMError :=
  if configured = false then
    ([], some (.config "OpenAI client not configured. Please set API key in settings."))
  else
    (chunks.filter (fun c => c != ""), failure.map openai_translate)

/-- Embedding of `LLMInterface.query_gemini`'s observable behaviour
(`src/llm_interface.py:250-316`): an unconfigured client and any exception are
both reported through `on_chunk` as ordinary text; nothing is ever raised. -/
def query_gemini (gemini_available : Bool) (chunks : List String)
    (failure : Option String) : List String × Option LLMError :=
  if gemini_available = false then
    (["Error: Gemini client not configured. Please set API key in settings."], none)
  else
    match failure with
    | none => (chunks.filter (fun c => c != ""), none)
    | some e =>
        (chunks.filter (fun c => c != "") ++ ["Error communicating with Gemini: " ++ e], none)

/-- Embedding of `LLMInterface.query_lmstudio` (`src/llm_interface.py:328-344`):
any exception is reported through `on_chunk` as ordinary text; nothing is
ever raised. -/
def query_lmstudio (chunks : List String) (failure : Option String) :
    List String × Option LLMError :=
  match failure with
  | none => (chunks.filter (fun c => c != ""), none)
  | some e =>
      (chunks.filter (fun c => c != "") ++ ["Error communicating with LM Studio: " ++ e], none)

/-- Recognized provider tags of `LLMInterface.query`. -/
inductive ProviderTag
  | ollama
  | openai
  | gemini
  | lmstudio
deriving DecidableEq, Repr

/-- Embedding of `selected_model.split(":", 1)[1]`: everything after the first
colon. -/
def model_name_of (s : String) : String :=
  String.intercalate ":" (s.splitOn ":").tail

/-- Embedding of `LLMInterface.query`'s provider dispatch
(`src/llm_interface.py:109-131`).  `backend` abstracts the four concrete query
methods, giving each recognized provider's delivered chunks and raised error
for the given model name; an unrecognized tag calls `on_chunk` once with a
synthetic error chunk and returns normally. -/
def query (selected_model : String)
    (backend : ProviderTag → String → List String × Option LLMError) :
    List String × Option LLMError :=
  if Str.starts_with selected_model "ollama:" = true then
    backend .ollama (model_name_of selected_model)
  else if Str.starts_with selected_model "openai:" = true then
    backend .openai (model_name_of selected_model)
  else if Str.starts_with selected_model "gemini:" = true then
    backend .gemini (model_name_of selected_model)
  else if Str.starts_with selected_model "lmstudio:" = true then
    backend .lmstudio (model_name_of selected_model)
  else
    (["Error: Unsupported model type"], none)

end Provider

namespace Delivery

/-- Embedding of the `StreamStatus` enum of `src/output_handler.py`. -/
inductive StreamStatus
  | idle
  | streaming
  | complete
  | error
  | timeout
deriving DecidableEq, Repr

/-- Clipboard-relevant state of a `DirectStreamHandler` session: the OS
clipboard (a global resource) together with the handler's
`original_clipboard` snapshot. -/
structure ClipState where
  clipboard : String
  original_clipboard : Option String
deriving DecidableEq, Repr

/-- Clipboard effect of `DirectStreamHandler.start_streaming`
(`src/output_handler.py:105-110`): snapshot the current clipboard into
`original_clipboard` (the snapshot read succeeded; a failed read stores
`none`). -/
def start_streaming (sys_clipboard : String) : ClipState :=
  { clipboard := sys_clipboard, original_clipboard := some sys_clipboard }

/-- Clipboard effect of `DirectStreamHandler._paste_text`: empty text returns
immediately; otherwise the text is copied to the clipboard (then Ctrl+V is
simulated, which does not change the clipboard). -/
def paste_text (st : ClipState) (text : String) : ClipState :=
  if text = "" then st else { st with clipboard := text }

/-- Embedding of `DirectStreamHandler._restore_clipboard`: copy the snapshot
back when one was taken. -/
def restore_clipboard (st : ClipState) : ClipState :=
  match st.original_clipboard with
  | some o => { st with clipboard := o }
  | none => st

/-- Clipboard effect of `DirectStreamHandler.wait_for_completion`: whatever
branch was taken (completion, timeout, or exception), the `finally` block runs
`_restore_clipboard` (`src/output_handler.py:171-174`). -/
def wait_for_completion_clipboard (st : ClipState) : ClipState :=
  restore_clipboard st

/-- Clipboard effect of `DirectStreamHandler.stop`
(`src/output_handler.py:202-206`), the emergency-cancel entry point: it only
runs `_stop_all_threads` (set the stop and pause events, join the two
threads); no clipboard operation is performed. -/
def stop (st : ClipState) : ClipState :=
  st

/-- Final-status computation of `DirectStreamHandler.wait_for_completion`
(`src/output_handler.py:140-161`): status becomes `timeout` if the join timed
out; otherwise it stays at the value the consumer left (`error` if the
consumer recorded one, else still `streaming`, which is promoted to
`complete`). -/
def final_status (consumer_error : Bool) (join_timed_out : Bool) : StreamStatus :=
  if join_timed_out then .timeout
  else if consumer_error then .error
  else .complete

/-- Events the consumer loop of `DirectStreamHandler._consume_tokens` observes
on its queue before the `None` sentinel arrives: a token from the provider, or
a `queue.Empty` timeout of `token_queue.get(timeout=1.0)`. -/
inductive QueueEvent
  | token (t : String)
  | empty_timeout
deriving DecidableEq, Repr

/-- The `buffer_size_limit` tuning parameter (`src/output_handler.py:80`). -/
def buffer_size_limit : Nat := 150

/-- Embedding of `token.endswith((' ', '\n', '\t', '.', ',', '!', '?', ';', ':'))`
(`src/output_handler.py:257`). -/
def ends_on_boundary (t : String) : Bool :=
  Str.ends_with t " " || Str.ends_with t "\n" || Str.ends_with t "\t" || Str.ends_with t "."
    || Str.ends_with t "," || Str.ends_with t "!" || Str.ends_with t "?" || Str.ends_with t ";"
    || Str.ends_with t ":"

/-- Embedding of the consumer loop of `DirectStreamHandler._consume_tokens`
(`src/output_handler.py:229-269`) when no stop is signalled and pasting does
not fail: given the queue events observed before the `None` sentinel and the
current buffer, it returns the texts pasted into the target window, in order
(the empty-list guard mirrors `_paste_text`'s early return on empty text;
the sentinel case flushes the remaining buffer and breaks). -/
def consume_tokens : List QueueEvent → String → List String
  | [], buffer =>
      if buffer = "" then [] else [buffer]
  | .token t :: rest, buffer =>
      let buffer := buffer ++ t
      if buffer_size_limit ≤ buffer.length || ends_on_boundary t then
        (if buffer = "" then [] else [buffer]) ++ consume_tokens rest ""
      else
        consume_tokens rest buffer
  | .empty_timeout :: rest, buffer =>
      if buffer = "" then consume_tokens rest ""
      else buffer :: consume_tokens rest ""

/-- The tokens carried by a queue-event sequence, in order. -/
def tokens_of : List QueueEvent → List String
  | [] => []
  | .token t :: rest => t :: tokens_of rest
  | .empty_timeout :: rest => tokens_of rest

/-- Concatenation of a list of strings, in order (the effect of pasting each
piece one after the other into the target window). -/
def concat_all : List String → String
  | [] => ""
  | s :: rest => s ++ concat_all rest

end Delivery

namespace Orchestrator

open Blink.History
open Blink.Delivery

/-- Embedding of the retry loop of `HotkeyManager.process`
(`src/hotkey_manager.py:475-512`).  `capture` gives the text captured at a
given attempt (empty/whitespace for a failed capture) and `process_query` the
outcome of `_process_query` for that text and attempt number.  The loop
returns the number of capture attempts performed and the final `success`
flag. -/
def process_loop (max_retries : Nat) (capture : Nat → String)
    (process_query : String → Nat → Bool)
    (attempt : Nat) (success : Bool) (captures : Nat) : Nat × Bool :=
  if h : attempt ≤ max_retries ∧ success = false then
    let text := capture attempt
    if Str.strip text = "" then
      process_loop max_retries capture process_query (attempt + 1) success (captures + 1)
    else
      process_loop max_retries capture process_query (attempt + 1)
        (process_query text attempt) (captures + 1)
  else
    (captures, success)
termination_by max_retries + 1 - attempt
decreasing_by
  all_goals exact Nat.sub_succ_lt_self _ _ (Nat.lt_succ_of_le h.1)

/-- Entry into the retry loop with `attempt = 0`, `success = False`. -/
def process (max_retries : Nat) (capture : Nat → String)
    (process_query : String → Nat → Bool) : Nat × Bool :=
  process_loop max_retries capture process_query 0 false 0

/-- Embedding of `HotkeyManager._process_direct_stream`
(`src/hotkey_manager.py:622-665`).  `chunks` is the full list of chunks the
provider handed to `on_chunk` (each is both forwarded to the handler and
appended to `full_response`); `query_raises` models `llm_interface.query`
raising; `consumer_error` and `join_timed_out` model the delivery
environment.  Returns the attempt's success flag and the conversation memory
after the attempt. -/
def process_direct_stream (memory : ConversationHistory) (memory_enabled : Bool)
    (user_text : String) (chunks : List String)
    (query_raises consumer_error join_timed_out : Bool) :
    Bool × ConversationHistory :=
  if query_raises then
    (false, memory)
  else
    let final := final_status consumer_error join_timed_out
    if final = StreamStatus.complete then
      if memory_enabled then
        (true, (memory.add_message "user" user_text).add_message
          "assistant" (concat_all chunks))
      else
        (true, memory)
    else
      (false, memory)

end Orchestrator

namespace SingleFlight

/-- Shared admission state of `HotkeyManager` plus the set of running worker
threads: `is_processing` is the guard flag checked and set by `on_hotkey`
(`src/hotkey_manager.py:97-122`), `in_callback` records that a hotkey callback
is between its `try` and its `finally`, and `active_workers` counts `process`
worker threads that have been spawned and not yet finished. -/
structure GuardState where
  is_processing : Bool
  in_callback : Bool
  active_workers : Nat
deriving DecidableEq, Repr

/-- Observable events of the admission machinery. -/
inductive Event
  | press
  | callback_return
  | worker_finish
deriving DecidableEq, Repr

/-- Labelled transition system for the admission control in
`HotkeyManager.on_hotkey`: a press with the flag set is dropped
(`if self.is_processing: return`); a press with the flag clear sets the flag
and spawns a worker thread; the callback's `finally` clears the flag when the
callback returns (after its 0.1 s sleep); a worker finishing decrements the
worker count.  Worker threads run concurrently with everything else. -/
inductive Step : GuardState → Event → GuardState → Prop
  | press_dropped (s : GuardState) :
      s.is_processing = true → Step s .press s
  | press_admitted (s : GuardState) :
      s.is_processing = false →
      Step s .press
        { is_processing := true, in_callback := true,
          active_workers := s.active_workers + 1 }
  | callback_return (s : GuardState) :
      s.in_callback = true →
      Step s .callback_return
        { is_processing := false, in_callback := false,
          active_workers := s.active_workers }
  | worker_finish (s : GuardState) (n : Nat) :
      s.active_workers = n + 1 →
      Step s .worker_finish { s with active_workers := n }

/-- States reachable from the initial state (flag clear, no callback running,
no worker threads). -/
inductive Reachable : GuardState → Prop
  | init : Reachable { is_processing := false, in_callback := false, active_workers := 0 }
  | step {s : GuardState} {e : Event} {s' : GuardState} :
      Reachable s → Step s e s' → Reachable s'

end SingleFlight

namespace Capture

/-- Embedding of `TextCapturer._capture_with_clipboard`
(`src/text_capturer.py:109-142`).  `clipboard` is the system clipboard before
the call; `after_copy` is the clipboard content after the simulated Ctrl+C
(equal to `clipboard` when nothing was selected, or the selection's text when
something was); `read_raises` models the clipboard read (`pyperclip.paste`)
raising.  Result: the outcome (captured text, or the propagated exception)
paired with the final system clipboard content. -/
def capture_with_clipboard (clipboard : String) (after_copy : String)
    (read_raises : Bool) : Except String String × String :=
  let original_clipboard := clipboard
  let clipboard := after_copy
  if read_raises then
    (Except.error "clipboard read raised", clipboard)
  else
    let captured_text := clipboard
    let clipboard := original_clipboard
    if captured_text = original_clipboard then
      (Except.ok "", clipboard)
    else
      (Except.ok captured_text, clipboard)

end Capture

namespace History

/-- The suffix kept by `takeLast` has length at most `n`. -/
theorem takeLast_length_le {α : Type} (n : Nat) (l : List α) :
    (takeLast n l).length ≤ n := by
  unfold takeLast
  rw [List.length_drop]
  omega

/-- Taking the last `n` of a kept suffix extended on the right is the same as
taking the last `n` of the full extended list. -/
theorem takeLast_append_takeLast {α : Type} (n : Nat) (l l2 : List α) :
    takeLast n (takeLast n l ++ l2) = takeLast n (l ++ l2) := by
  unfold takeLast
  rw [← List.drop_append_of_le_length (Nat.sub_le l.length n), List.drop_drop]
  congr 1
  simp only [List.length_append, List.length_drop]
  omega

/-- Record eta for `Message`. -/
theorem message_eta (m : Message) : ({ role := m.role, content := m.content } : Message) = m :=
  rfl

/-- Within the capacity invariant, `add_message` keeps exactly the last
`maxlen` entries of the extended buffer. -/
theorem add_message_history (h : ConversationHistory) (r c : String)
    (hle : h.history.length ≤ h.maxlen) :
    (h.add_message r c).history
      = takeLast h.maxlen (h.history ++ [{ role := r, content := c }]) := by
  unfold ConversationHistory.add_message takeLast
  dsimp only
  split
  · next hlt =>
      have hone : (h.history ++ [({ role := r, content := c } : Message)]).length - h.maxlen
          = 1 := by
        rw [List.length_append] at hlt ⊢
        simp at hlt ⊢
        omega
      rw [hone, List.drop_one]
  · next hge =>
      have hzero : (h.history ++ [({ role := r, content := c } : Message)]).length - h.maxlen
          = 0 := by
        rw [List.length_append] at hge ⊢
        simp at hge ⊢
        omega
      rw [hzero, List.drop_zero]

/-- `add_message` never changes the capacity. -/
theorem add_message_maxlen (h : ConversationHistory) (r c : String) :
    (h.add_message r c).maxlen = h.maxlen := by
  unfold ConversationHistory.add_message
  dsimp only
  split <;> rfl

/-- Characterization of a whole sequence of `add_message` calls: the buffer
always holds the last `maxlen` entries of everything appended so far. -/
theorem add_all_history (msgs : List Message) (h : ConversationHistory)
    (hle : h.history.length ≤ h.maxlen) :
    (h.add_all msgs).history = takeLast h.maxlen (h.history ++ msgs)
      ∧ (h.add_all msgs).maxlen = h.maxlen := by
  induction msgs generalizing h with
  | nil =>
      refine ⟨?_, rfl⟩
      unfold takeLast
      have hz : (h.history ++ []).length - h.maxlen = 0 := by
        rw [List.length_append]
        simp
        omega
      rw [hz, List.drop_zero, List.append_nil]
      rfl
  | cons m rest ih =>
      have hstep : (h.add_message m.role m.content).history
          = takeLast h.maxlen (h.history ++ [m]) := by
        rw [add_message_history h m.role m.content hle, message_eta]
      have hlen : (h.add_message m.role m.content).history.length
          ≤ (h.add_message m.role m.content).maxlen := by
        rw [hstep, add_message_maxlen]
        exact takeLast_length_le _ _
      have hrec := ih (h.add_message m.role m.content) hlen
      have hfold : h.add_all (m :: rest) = (h.add_message m.role m.content).add_all rest := rfl
      refine ⟨?_, ?_⟩
      · rw [hfold, hrec.1, hstep, add_message_maxlen, takeLast_append_takeLast,
          List.append_assoc]
        rfl
      · rw [hfold, hrec.2, add_message_maxlen]

end History

namespace Delivery

/-- `paste_text` never touches the `original_clipboard` snapshot, so a whole
sequence of pastes preserves it. -/
theorem foldl_paste_original (pastes : List String) (st : ClipState) :
    (pastes.foldl paste_text st).original_clipboard = st.original_clipboard := by
  induction pastes generalizing st with
  | nil => rfl
  | cons p rest ih =>
      rw [List.foldl_cons, ih]
      unfold paste_text
      split <;> rfl

/-- Concatenation distributes over list append. -/
theorem concat_all_append (l1 l2 : List String) :
    concat_all (l1 ++ l2) = concat_all l1 ++ concat_all l2 := by
  induction l1 with
  | nil => exact (String.empty_append _).symm
  | cons s rest ih =>
      rw [List.cons_append,
        show concat_all (s :: (rest ++ l2)) = s ++ concat_all (rest ++ l2) from rfl,
        show concat_all (s :: rest) = s ++ concat_all rest from rfl,
        ih, String.append_assoc]

/-- Concatenating the guarded paste of `_paste_text` (which skips empty text)
contributes exactly the buffered text. -/
theorem concat_paste (b : String) (l : List String) :
    concat_all ((if b = "" then [] else [b]) ++ l) = b ++ concat_all l := by
  by_cases hb : b = ""
  · rw [if_pos hb, List.nil_append, hb, String.empty_append]
  · rw [if_neg hb, List.cons_append, List.nil_append]
    rfl

/-- The consumer loop pastes, in order, exactly the pending buffer followed by
every token it dequeues before the sentinel. -/
theorem consume_tokens_concat (events : List QueueEvent) (buffer : String) :
    concat_all (consume_tokens events buffer)
      = buffer ++ concat_all (tokens_of events) := by
  induction events generalizing buffer with
  | nil =>
      by_cases hb : buffer = ""
      · rw [show consume_tokens [] buffer = [] by rw [consume_tokens, if_pos hb], hb]
        rfl
      · rw [show consume_tokens [] buffer = [buffer] by rw [consume_tokens, if_neg hb]]
        rfl
  | cons e rest ih =>
      cases e with
      | token t =>
          rw [show consume_tokens (.token t :: rest) buffer
              = if buffer_size_limit ≤ (buffer ++ t).length || ends_on_boundary t then
                  (if buffer ++ t = "" then [] else [buffer ++ t]) ++ consume_tokens rest ""
                else consume_tokens rest (buffer ++ t) from rfl]
          by_cases hc : buffer_size_limit ≤ (buffer ++ t).length || ends_on_boundary t
          · rw [if_pos hc, concat_paste, ih, String.empty_append, tokens_of,
              concat_all, String.append_assoc]
          · rw [if_neg hc, ih, tokens_of, concat_all, String.append_assoc]
      | empty_timeout =>
          rw [show tokens_of (.empty_timeout :: rest) = tokens_of rest from rfl]
          by_cases hb : buffer = ""
          · rw [show consume_tokens (.empty_timeout :: rest) buffer = consume_tokens rest ""
                from by rw [consume_tokens, if_pos hb], ih, hb]
          · rw [show consume_tokens (.empty_timeout :: rest) buffer
                = buffer :: consume_tokens rest "" from by rw [consume_tokens, if_neg hb]]
            rw [show concat_all (buffer :: consume_tokens rest "")
                = buffer ++ concat_all (consume_tokens rest "") from rfl,
              ih, String.empty_append]

end Delivery

namespace Orchestrator

/-- With a capture source that always produces empty text, every loop
iteration fails its capture check, so the loop performs one capture per
remaining admissible attempt and ends unsuccessfully. -/
theorem process_loop_all_empty (max_retries : Nat)
    (process_query : String → Nat → Bool) (attempt captures : Nat) :
    process_loop max_retries (fun _ => "") process_query attempt false captures
      = (captures + (max_retries + 1 - attempt), false) := by
  have main : ∀ fuel attempt captures, max_retries + 1 - attempt = fuel →
      process_loop max_retries (fun _ => "") process_query attempt false captures
        = (captures + fuel, false) := by
    intro fuel
    induction fuel with
    | zero =>
        intro attempt captures hf
        rw [process_loop.eq_def]
        have hgt : ¬(attempt ≤ max_retries ∧ false = false) := by
          intro hand
          omega
        rw [dif_neg hgt]
        rfl
    | succ n ih =>
        intro attempt captures hf
        rw [process_loop.eq_def]
        have hle : attempt ≤ max_retries := by omega
        rw [dif_pos (And.intro hle rfl)]
        dsimp only
        rw [if_pos (show Str.strip "" = "" from rfl)]
        rw [ih (attempt + 1) (captures + 1) (by omega)]
        have harith : captures + 1 + n = captures + (n + 1) := by omega
        rw [harith]
  exact main _ attempt captures rfl

end Orchestrator

/-- C1: the single-flight claim is refuted by the code: `on_hotkey` clears
`is_processing` in its own `finally` (about 0.1 s after spawning the worker
thread), not when the request finishes, so a second hotkey press arriving
after the callback returned — while the first request is still streaming — is
admitted and spawns a second worker.  This theorem evaluates the admission
transition system at that failing trace: a state with two simultaneously
active worker threads is reachable (press, callback return, press). -/
theorem single_flight_two_workers_reachable :
    SingleFlight.Reachable
      { is_processing := true, in_callback := true, active_workers := 2 } :=
  SingleFlight.Reachable.step
    (SingleFlight.Reachable.step
      (SingleFlight.Reachable.step SingleFlight.Reachable.init
        (SingleFlight.Step.press_admitted _ rfl))
      (SingleFlight.Step.callback_return _ rfl))
    (SingleFlight.Step.press_admitted _ rfl)

/-- C2 counterexample: the claim fails on the emergency-cancel exit path.
`DirectStreamHandler.stop` only stops the background threads; it performs no
clipboard restoration, so after a session that pasted `"streamed "` and was
cancelled through `stop`, the system clipboard still holds the pasted text,
not the pre-session content `"original"`. -/
theorem clipboard_restore_counterexample :
    (Delivery.stop (Delivery.paste_text (Delivery.start_streaming "original")
        "streamed ")).clipboard ≠ "original" := by
  decide

/-- C2 amended: for every delivery session that exits through
`wait_for_completion` (successful completion, provider error, or timeout),
the clipboard after the session equals its content immediately before the
session started, whatever was pasted in between; only the emergency-cancel
`stop` path skips restoration. -/
theorem clipboard_restore_amended (sys_clipboard : String) (pastes : List String) :
    (Delivery.wait_for_completion_clipboard
        (pastes.foldl Delivery.paste_text
          (Delivery.start_streaming sys_clipboard))).clipboard = sys_clipboard := by
  have h := Delivery.foldl_paste_original pastes (Delivery.start_streaming sys_clipboard)
  rw [show (Delivery.start_streaming sys_clipboard).original_clipboard
      = some sys_clipboard from rfl] at h
  unfold Delivery.wait_for_completion_clipboard Delivery.restore_clipboard
  rw [h]

/-- C3 counterexample: in direct-stream mode an attempt that received zero
chunks still finishes with status `Complete`, is reported successful, and
commits the user turn plus an empty assistant turn to memory — the claim's
"zero chunks is a failure, no memory commit" is false on
`HotkeyManager._process_direct_stream`. -/
theorem memory_commit_counterexample :
    (Orchestrator.process_direct_stream (History.ConversationHistory.empty 50)
        true "hi" [] false false false).1 = true
    ∧ (Orchestrator.process_direct_stream (History.ConversationHistory.empty 50)
        true "hi" [] false false false).2
      = { maxlen := 50,
          history := [{ role := "user", content := "hi" },
            { role := "assistant", content := "" }] } := by
  constructor
  · rfl
  · decide

/-- C3 amended: in direct-stream mode, for every request attempt the user and
assistant turns are appended to Conversation Memory if and only if the
provider query did not raise and the delivery finished with status `Complete`
— regardless of how many chunks (possibly zero) were received; a zero-chunk
`Complete` attempt is treated as a success, not retried. -/
theorem memory_commit_amended (memory : History.ConversationHistory)
    (user_text : String) (chunks : List String)
    (query_raises consumer_error join_timed_out : Bool) :
    Orchestrator.process_direct_stream memory true user_text chunks
        query_raises consumer_error join_timed_out
      = if query_raises = false
            ∧ Delivery.final_status consumer_error join_timed_out
              = Delivery.StreamStatus.complete then
          (true, (memory.add_message "user" user_text).add_message "assistant"
            (Delivery.concat_all chunks))
        else
          (false, memory) := by
  cases query_raises <;> cases consumer_error <;> cases join_timed_out <;>
    simp [Orchestrator.process_direct_stream, Delivery.final_status]

/-- C4 counterexample: the Gemini backend does not translate transport
failures into typed errors: a failing `send_message` surfaces as a single
ordinary output chunk carrying the message, with nothing raised — refuting
"never silently converted into ordinary output chunks" for this backend. -/
theorem provider_error_counterexample :
    Provider.query_gemini true [] (some "Connection refused")
      = (["Error communicating with Gemini: Connection refused"], none) := by
  decide

/-- C4 amended: the Ollama backend translates every wire failure into
`LLMConnectionError`/`LLMAuthError`, and the OpenAI backend into
`LLMConfigError` (unconfigured client) or `LLMAuthError`/`LLMConnectionError`
(keyword match), in each case raising the typed error and not emitting it as
a chunk; the Gemini and LM Studio backends instead deliver every failure to
`on_chunk` as one synthetic text chunk appended after the chunks already
streamed, and raise nothing. -/
theorem provider_error_amended (chunks : List String) (w : Provider.RequestsError)
    (emsg : String) :
    ((Provider.query_ollama chunks (some w)).2 = some (Provider.ollama_translate w)
      ∧ (Provider.query_ollama chunks (some w)).1 = chunks.filter (fun c => c != "")
      ∧ (∃ m, Provider.ollama_translate w = Provider.LLMError.connection m
          ∨ Provider.ollama_translate w = Provider.LLMError.auth m))
    ∧ ((Provider.query_openai true chunks (some emsg)).2
        = some (Provider.openai_translate emsg)
      ∧ (∃ m, Provider.openai_translate emsg = Provider.LLMError.auth m
          ∨ Provider.openai_translate emsg = Provider.LLMError.connection m))
    ∧ (Provider.query_openai false chunks (some emsg)).2
      = some (Provider.LLMError.config
          "OpenAI client not configured. Please set API key in settings.")
    ∧ Provider.query_gemini true chunks (some emsg)
      = (chunks.filter (fun c => c != "")
          ++ ["Error communicating with Gemini: " ++ emsg], none)
    ∧ Provider.query_lmstudio chunks (some emsg)
      = (chunks.filter (fun c => c != "")
          ++ ["Error communicating with LM Studio: " ++ emsg], none) := by
  refine ⟨⟨rfl, rfl, ?_⟩, ⟨rfl, ?_⟩, rfl, rfl, rfl⟩
  · cases w with
    | connection_error => exact ⟨_, Or.inl rfl⟩
    | timeout_error => exact ⟨_, Or.inl rfl⟩
    | http_error code =>
        by_cases h401 : code = 401
        · refine ⟨"Authentication failed with Ollama server.", Or.inr ?_⟩
          show (if code = 401 then
              Provider.LLMError.auth "Authentication failed with Ollama server."
            else Provider.LLMError.connection ("Ollama server error: " ++ toString code))
            = Provider.LLMError.auth "Authentication failed with Ollama server."
          rw [if_pos h401]
        · refine ⟨"Ollama server error: " ++ toString code, Or.inl ?_⟩
          show (if code = 401 then
              Provider.LLMError.auth "Authentication failed with Ollama server."
            else Provider.LLMError.connection ("Ollama server error: " ++ toString code))
            = Provider.LLMError.connection ("Ollama server error: " ++ toString code)
          rw [if_neg h401]
    | request_exception m => exact ⟨_, Or.inl rfl⟩
  · unfold Provider.openai_translate
    dsimp only
    split
    · exact ⟨_, Or.inl rfl⟩
    · exact ⟨_, Or.inr rfl⟩

/-- C5: for every capacity `C ≥ 1` and every sequence of `add` calls, a
subsequent `get_history()` returns exactly the last `min(N, C)` added
messages in their original relative insertion order, with length
`min(N, C)`. -/
theorem memory_bound (C : Nat) (hC : 1 ≤ C) (msgs : List History.Message) :
    ((History.ConversationHistory.empty C).add_all msgs).get_history
        = msgs.drop (msgs.length - C)
      ∧ (((History.ConversationHistory.empty C).add_all msgs).get_history).length
        = min msgs.length C := by
  have h := History.add_all_history msgs (History.ConversationHistory.empty C)
    (by exact Nat.zero_le _)
  have hh : ((History.ConversationHistory.empty C).add_all msgs).get_history
      = msgs.drop (msgs.length - C) := by
    rw [History.ConversationHistory.get_history, h.1]
    unfold History.takeLast
    rw [show (History.ConversationHistory.empty C).history = [] from rfl,
      List.nil_append]
    rfl
  refine ⟨hh, ?_⟩
  rw [hh, List.length_drop]
  omega

/-- C5 witness: adding `"m0","m1","m2","m3"` to a capacity-3 memory yields the
snapshot `["m1","m2","m3"]`. -/
theorem memory_bound_witness :
    ((History.ConversationHistory.empty 3).add_all
        [History.Message.mk "user" "m0", History.Message.mk "user" "m1", History.Message.mk "user" "m2", History.Message.mk "user" "m3"]).get_history
      = [History.Message.mk "user" "m0", History.Message.mk "user" "m1", History.Message.mk "user" "m2", History.Message.mk "user" "m3"].drop
          ([History.Message.mk "user" "m0", History.Message.mk "user" "m1", History.Message.mk "user" "m2", History.Message.mk "user" "m3"].length - 3)
    ∧ (((History.ConversationHistory.empty 3).add_all
        [History.Message.mk "user" "m0", History.Message.mk "user" "m1", History.Message.mk "user" "m2", History.Message.mk "user" "m3"]).get_history).length
      = min [History.Message.mk "user" "m0", History.Message.mk "user" "m1", History.Message.mk "user" "m2", History.Message.mk "user" "m3"].length 3 :=
  memory_bound 3 (by decide)
    [History.Message.mk "user" "m0", History.Message.mk "user" "m1", History.Message.mk "user" "m2", History.Message.mk "user" "m3"]

/-- C6: the direct-paste consumer preserves chunk order and loses nothing:
for every sequence of provider chunks (with arbitrary queue-empty timeouts
interleaved) followed by the end-of-stream sentinel, the concatenation of all
texts pasted equals the concatenation of the chunks in emission order. -/
theorem chunk_order (events : List Delivery.QueueEvent) :
    Delivery.concat_all (Delivery.consume_tokens events "")
      = Delivery.concat_all (Delivery.tokens_of events) := by
  rw [Delivery.consume_tokens_concat, String.empty_append]

/-- C7: with `max_retries = 2` and a capture source that always returns
empty, `HotkeyManager.process`'s retry loop performs exactly 3 capture
attempts and ends with `success = False` (terminal failure). -/
theorem retry_exhaustion (process_query : String → Nat → Bool) :
    Orchestrator.process 2 (fun _ => "") process_query = (3, false) := by
  unfold Orchestrator.process
  rw [Orchestrator.process_loop_all_empty]

/-- C8 counterexample: the restore step of the clipboard fallback is not
exception-safe: when the clipboard read raises (after the simulated copy
placed `"selected text"` on the clipboard), `_capture_with_clipboard`
propagates the exception without restoring, leaving the clipboard holding
`"selected text"` instead of the original `"original"`. -/
theorem capture_restore_counterexample :
    (Capture.capture_with_clipboard "original" "selected text" true).2
      ≠ "original" := by
  decide

/-- C8 amended: in the clipboard fallback of `captureSelection`, the original
clipboard is restored on every non-raising path; when the clipboard-read step
raises, the exception propagates before the restore line runs, and the
clipboard is left holding whatever the simulated copy placed on it. -/
theorem capture_restore_amended (clipboard after_copy : String) :
    (Capture.capture_with_clipboard clipboard after_copy false).2 = clipboard
    ∧ (Capture.capture_with_clipboard clipboard after_copy true).2 = after_copy := by
  constructor
  · rw [show Capture.capture_with_clipboard clipboard after_copy false
        = if after_copy = clipboard then (Except.ok "", clipboard)
          else (Except.ok after_copy, clipboard) from rfl]
    split <;> rfl
  · rfl

/-- C9: for every model identifier whose provider tag is not one of
`ollama:`, `openai:`, `gemini:`, `lmstudio:`, `LLMInterface.query` calls
`on_chunk` exactly once with the synthetic chunk
`"Error: Unsupported model type"` and returns normally (raises nothing),
whatever the backends would do. -/
theorem unsupported_provider (selected_model : String)
    (backend : Provider.ProviderTag → String → List String × Option Provider.LLMError)
    (h1 : Str.starts_with selected_model "ollama:" = false)
    (h2 : Str.starts_with selected_model "openai:" = false)
    (h3 : Str.starts_with selected_model "gemini:" = false)
    (h4 : Str.starts_with selected_model "lmstudio:" = false) :
    Provider.query selected_model backend
      = (["Error: Unsupported model type"], none) := by
  unfold Provider.query
  rw [h1, h2, h3, h4]
  rfl

/-- C9 witness: dispatching the model id `"unsupported:foo"` yields the single
synthetic error chunk and no raised error. -/
theorem unsupported_provider_witness :
    Provider.query "unsupported:foo" (fun _ _ => ([], none))
      = (["Error: Unsupported model type"], none) :=
  unsupported_provider "unsupported:foo" (fun _ _ => ([], none))
    (by decide) (by decide) (by decide) (by decide)

/-- C10: in the clipboard-fallback capture path, whenever the text produced by
the simulated copy equals the snapshotted pre-capture clipboard content —
including when a real selection's text happens to equal the prior clipboard
character-for-character — the capture returns the empty string, reporting
that nothing was selected. -/
theorem capture_false_negative (clipboard : String) :
    (Capture.capture_with_clipboard clipboard clipboard false).1
      = Except.ok "" := by
  unfold Capture.capture_with_clipboard
  simp

end Blink
